import Mathlib

/-!
Verification development for the coreboot program-loading interface
(src/include/program_loading.h), the AMD 8132 PCI-X bridge tuning driver,
and the Supermicro X12SPW GPIO configuration glue.

Pure C functions are embedded as Lean functions; struct mutation becomes
functional record update; hook invocations become explicit event traces.
Machine integers are modelled as Nat with explicit 32-bit masks where the
C code relies on unsigned bitwise arithmetic.
-/

/-- Program types, from `enum prog_type` in program_loading.h. -/
inductive ProgType where
  | unknown
  | bootblock
  | verstage
  | romstage
  | ramstage
  | refcode
  | payload
  | bl31
  | bl32
  | postcar
  | opensbi
deriving DecidableEq, Repr

/-- SEG_FINAL = 1 << 0: flag marking the last segment of a program load
(program_loading.h). -/
def SEG_FINAL : Nat := 1

/-- Region devices. `addrspace32bit` is the root region_device representing
the 32-bit flat address space (`addrspace_32bit` in program_loading.h);
`chain parent offset sz` models the result of `rdev_chain` (external
commonlib/region collaborator) binding a sub-span of `parent`; `absent`
is the zero-initialized rdev of a freshly constructed descriptor. -/
inductive RegionDevice where
  | absent
  | addrspace32bit
  | chain (parent : RegionDevice) (offset : Nat) (sz : Nat)
deriving DecidableEq, Repr

/-- struct prog from program_loading.h. Function pointers (`entry`) and
`void *` values (`arg`) are modelled as addresses (Nat, 0 = NULL); the
external `enum cbfs_type` is modelled as Nat. -/
structure Prog where
  type : ProgType
  cbfs_type : Nat
  name : String
  rdev : RegionDevice
  entry : Nat
  arg : Nat
deriving DecidableEq, Repr

/-- PROG_INIT(type_, name_): designated initializer sets type and name,
zero-initializes the remaining fields. -/
def PROG_INIT (t : ProgType) (n : String) : Prog :=
  ⟨t, 0, n, RegionDevice.absent, 0, 0⟩

/-- prog_name accessor. -/
def prog_name (p : Prog) : String := p.name

/-- prog_type accessor. -/
def prog_type (p : Prog) : ProgType := p.type

/-- prog_cbfs_type accessor. -/
def prog_cbfs_type (p : Prog) : Nat := p.cbfs_type

/-- prog_entry accessor. -/
def prog_entry (p : Prog) : Nat := p.entry

/-- prog_entry_arg accessor. -/
def prog_entry_arg (p : Prog) : Nat := p.arg

/-- prog_memory_init(prog, ptr, size): rdev_chain(&prog->rdev,
&addrspace_32bit.rdev, ptr, size). -/
def prog_memory_init (p : Prog) (ptr sz : Nat) : Prog :=
  { p with rdev := RegionDevice.chain RegionDevice.addrspace32bit ptr sz }

/-- prog_set_area(prog, start, size) = prog_memory_init(prog,
(uintptr_t)start, size). -/
def prog_set_area (p : Prog) (start sz : Nat) : Prog :=
  prog_memory_init p start sz

/-- prog_set_entry(prog, e, arg): prog->entry = e; prog->arg = arg. -/
def prog_set_entry (p : Prog) (e a : Nat) : Prog :=
  { p with entry := e, arg := a }

/-- prog_set_arg(prog, arg): prog->arg = arg. -/
def prog_set_arg (p : Prog) (a : Nat) : Prog :=
  { p with arg := a }

/-- struct prog_loader_ops from program_loading.h: `is_loader_active`
returns 1 if the loader is the active one, else 0 or < 0 on error;
`locate` resolves the rdev of the file data for the prog. Its success
(0) / failure (< 0) result together with the located region is modelled
as `Option RegionDevice` (`some r` = success populating the backing
region with `r`, `none` = failure). -/
structure ProgLoaderOps where
  name : String
  is_loader_active : Prog → Int
  locate : Prog → Option RegionDevice

/-- Outcome of the Locator, one constructor per distinct reportable error
kind of the spec plus success. -/
inductive LocateOutcome where
  | policyDenied
  | noActiveLoader
  | locateFailed
  | success
deriving DecidableEq, Repr

/-- Result of a prog_locate call: the outcome, the (possibly updated)
descriptor, and the names of the loader strategies whose `locate`
operation was invoked, in order. -/
structure LocateResult where
  outcome : LocateOutcome
  prog : Prog
  invoked : List String
deriving DecidableEq, Repr

/-- Modelled from the spec: the strategy-iteration loop of the Locator
(the body of prog_locate lives in src/lib/prog_loaders.c, which is not
under src/; only its declaration in program_loading.h is). Strategies are
tried in order; an inactive strategy (is_loader_active ≠ 1) is skipped;
the locate result of the first active strategy is authoritative, with no
fall-through; if no strategy is active the result is a distinct
no-active-loader error. -/
def locate_loop : List ProgLoaderOps → Prog → LocateResult
  | [], p => ⟨LocateOutcome.noActiveLoader, p, []⟩
  | l :: ls, p =>
      if l.is_loader_active p = 1 then
        match l.locate p with
        | some r => ⟨LocateOutcome.success, { p with rdev := r }, [l.name]⟩
        | none => ⟨LocateOutcome.locateFailed, p, [l.name]⟩
      else locate_loop ls p

/-- Modelled from the spec: prog_locate (body in src/lib/prog_loaders.c,
not under src/). It first invokes the policy hook prog_locate_hook; a
non-zero return prohibits further progress, failing with a policy-denied
error before any strategy is tried; otherwise the registered loader
strategies are iterated. -/
def prog_locate (hook : Prog → Int) (loaders : List ProgLoaderOps)
    (p : Prog) : LocateResult :=
  if hook p ≠ 0 then ⟨LocateOutcome.policyDenied, p, []⟩
  else locate_loop loaders p

/-- Hook invocations observed during segment loading: the platform hook
platform_segment_loaded and the architecture hook arch_segment_loaded,
each with the (start, size, flags) arguments it received. -/
inductive SegEvent where
  | platform (start : Nat) (sz : Nat) (flags : Nat)
  | arch (start : Nat) (sz : Nat) (flags : Nat)
deriving DecidableEq, Repr

/-- Modelled from the spec: prog_segment_loaded (body in src/lib, not
under src/; program_loading.h documents that platform_segment_loaded and
arch_segment_loaded are called in that order within it, with the same
arguments). The call is modelled as the trace of hook events it emits. -/
def prog_segment_loaded (start sz flags : Nat) : List SegEvent :=
  [SegEvent.platform start sz flags, SegEvent.arch start sz flags]

/-- Modelled from the spec: a load step (e.g. src/lib/selfboot.c, not
under src/) calls prog_segment_loaded once per segment (start, size),
passing SEG_FINAL in flags exactly on the last segment and 0 otherwise.
The whole load is modelled as the concatenated hook trace. -/
def load_segments : List (Nat × Nat) → List SegEvent
  | [] => []
  | [(s, z)] => prog_segment_loaded s z SEG_FINAL
  | (s, z) :: rest => prog_segment_loaded s z 0 ++ load_segments rest

/-- Per-segment (start, size, flags) annotation of a load: SEG_FINAL on
the last segment, 0 on every other. Characterizes load_segments. -/
def segAnnotate : List (Nat × Nat) → List (Nat × Nat × Nat)
  | [] => []
  | [(s, z)] => [(s, z, SEG_FINAL)]
  | (s, z) :: rest => (s, z, 0) :: segAnnotate rest

/-- The hook trace generated by a list of annotated segments: for each,
the platform event immediately followed by the arch event, with the same
start, size and flags. -/
def pairTrace : List (Nat × Nat × Nat) → List SegEvent
  | [] => []
  | a :: rest =>
      SegEvent.platform a.1 a.2.1 a.2.2 :: SegEvent.arch a.1 a.2.1 a.2.2 ::
        pairTrace rest

/-- Hook invocations observed during prog_run: platform_prog_run and
arch_prog_run, each with the descriptor it received. -/
inductive RunEvent where
  | platformRun (p : Prog)
  | archRun (p : Prog)
deriving DecidableEq, Repr

/-- Modelled from the spec: prog_run (body in src/lib, not under src/;
program_loading.h documents that platform_prog_run is called prior to
arch_prog_run). A pure dispatch point: it emits the two hook events in
order and mutates no descriptor state. -/
def prog_run (p : Prog) : List RunEvent × Prog :=
  ([RunEvent.platformRun p, RunEvent.archRun p], p)

/-- Modelled from the spec: PCI_X_CMD_DPERR_E from device/pcix.h, which
is not under src/; standard PCI-X command register layout (Data Parity
Error Recovery Enable, bit 0). -/
def PCI_X_CMD_DPERR_E : Nat := 0x1

/-- Modelled from the spec: PCI_X_CMD_MAX_READ from device/pcix.h, not
under src/; standard PCI-X command register layout (Max Memory Read Byte
Count, bits 3:2). -/
def PCI_X_CMD_MAX_READ : Nat := 0xc

/-- Modelled from the spec: PCI_X_CMD_MAX_SPLIT from device/pcix.h, not
under src/; standard PCI-X command register layout (Max Outstanding Split
Transactions, bits 6:4). -/
def PCI_X_CMD_MAX_SPLIT : Nat := 0x70

/-- Modelled from the spec: PCI_X_STATUS_MAX_READ from device/pcix.h,
not under src/; standard PCI-X status register layout (Designed Max
Memory Read Byte Count, bits 22:21; the driver shifts it down by 21). -/
def PCI_X_STATUS_MAX_READ : Nat := 0x600000

/-- Modelled from the spec: PCI_X_STATUS_MAX_SPLIT from device/pcix.h,
not under src/; standard PCI-X status register layout (Designed Max
Outstanding Split Transactions, bits 25:23; the driver shifts it down by
23). -/
def PCI_X_STATUS_MAX_SPLIT : Nat := 0x3800000

/-- Bitwise complement of a mask within a 32-bit unsigned word, as the C
expression `~mask` evaluates on `unsigned`. -/
def NOT32 (m : Nat) : Nat := 0xffffffff ^^^ m

/-- The Errata #53 clamp applied to max_tran in amd8132_pcix_tune_dev:
only for bridge revision 0x01; limit depends on sibs =
master_devices - 1 (lines 97-123 of the driver). -/
def amd8132_clamped_tran (rev : Nat) (sibs : Int) (v : Nat) : Nat :=
  if rev = 0x01 then
    if sibs ≥ 2 then (if v > 1 then 1 else v)
    else if sibs = 1 then (if v > 3 then 3 else v)
    else (if v > 4 then 4 else v)
  else v

/-- The command-register computation of amd8132_pcix_tune_dev for a
device that passed the header-type and capability guards: from the
bridge revision, the master-device count of the bus, the PCI-X status
register and the original command register, compute the value written
back, or `none` when no write is performed (the write is guarded by
`orig_cmd != cmd`). -/
def amd8132_tune_cmd (rev : Nat) (master_devices : Int)
    (status cmd0 : Nat) : Option Nat :=
  let sibs : Int := master_devices - 1
  let max_read := (status &&& PCI_X_STATUS_MAX_READ) >>> 21
  let max_tran :=
    amd8132_clamped_tran rev sibs ((status &&& PCI_X_STATUS_MAX_SPLIT) >>> 23)
  let cmd1 :=
    if max_read ≠ ((cmd0 &&& PCI_X_CMD_MAX_READ) >>> 2) then
      (cmd0 &&& NOT32 PCI_X_CMD_MAX_READ) ||| (max_read <<< 2)
    else cmd0
  let cmd2 :=
    if max_tran ≠ ((cmd1 &&& PCI_X_CMD_MAX_SPLIT) >>> 4) then
      (cmd1 &&& NOT32 PCI_X_CMD_MAX_SPLIT) ||| (max_tran <<< 4)
    else cmd1
  let cmd3 := cmd2 &&& NOT32 PCI_X_CMD_DPERR_E
  if cmd0 ≠ cmd3 then some cmd3 else none

/-- GPIO pad configuration entries (struct pad_config contents are in
x12spw_pch_gpio.h, not needed for the claims here); modelled
abstractly. -/
def PadCfg : Type := Nat

/-- ARRAY_SIZE macro on the pad table. -/
def ARRAY_SIZE (t : List PadCfg) : Nat := t.length

/-- Modelled from the spec: gpio_configure_pads (the SoC GPIO driver is
not under src/) configures the first `num` entries of the pad table;
modelled as the sequence of pad configurations it applies. -/
def gpio_configure_pads (table : List PadCfg) (num : Nat) : List PadCfg :=
  table.take num

/-- mainboard_configure_gpios from
mainboard/supermicro/x12spw/variants/x12spw-f/gpio.c:
gpio_configure_pads(gpio_table, ARRAY_SIZE(gpio_table)); parameterized by
the gpio_table contents (defined in x12spw_pch_gpio.h). -/
def mainboard_configure_gpios (gpio_table : List PadCfg) : List PadCfg :=
  gpio_configure_pads gpio_table (ARRAY_SIZE gpio_table)

/-- mainboard_configure_early_gpios from the early-GPIO translation unit
of the same variant: gpio_configure_pads(gpio_table,
ARRAY_SIZE(gpio_table)). -/
def mainboard_configure_early_gpios (gpio_table : List PadCfg) : List PadCfg :=
  gpio_configure_pads gpio_table (ARRAY_SIZE gpio_table)

/-! Helper lemmas. -/

/-- The strategy loop preserves the type field of the descriptor. -/
theorem locate_loop_type_eq :
    ∀ (ls : List ProgLoaderOps) (p : Prog),
      (locate_loop ls p).prog.type = p.type
  | [], _ => rfl
  | l :: ls, p => by
      by_cases hA : l.is_loader_active p = 1
      · cases hl : l.locate p <;> simp [locate_loop, hA, hl]
      · simpa [locate_loop, hA] using locate_loop_type_eq ls p

/-- On any outcome other than success, the strategy loop returns the
descriptor unchanged. -/
theorem locate_loop_fail_prog :
    ∀ (ls : List ProgLoaderOps) (p : Prog),
      (locate_loop ls p).outcome ≠ LocateOutcome.success →
      (locate_loop ls p).prog = p
  | [], _, _ => rfl
  | l :: ls, p, h => by
      by_cases hA : l.is_loader_active p = 1
      · cases hl : l.locate p
        · simp [locate_loop, hA, hl]
        · exact absurd (by simp [locate_loop, hA, hl]) h
      · simpa [locate_loop, hA] using
          locate_loop_fail_prog ls p (by simpa [locate_loop, hA] using h)

/-- load_segments is the pair trace of the annotated segment list. -/
theorem load_segments_eq_pairTrace :
    ∀ segs : List (Nat × Nat),
      load_segments segs = pairTrace (segAnnotate segs)
  | [] => rfl
  | [(_, _)] => rfl
  | (s, z) :: b :: rest => by
      show prog_segment_loaded s z 0 ++ load_segments (b :: rest) =
        pairTrace ((s, z, 0) :: segAnnotate (b :: rest))
      rw [load_segments_eq_pairTrace (b :: rest)]
      rfl

/-- The annotation keeps each start address and size of each segment. -/
theorem segAnnotate_map :
    ∀ segs : List (Nat × Nat),
      (segAnnotate segs).map (fun a => (a.1, a.2.1)) = segs
  | [] => rfl
  | [(_, _)] => rfl
  | (s, z) :: b :: rest => by
      show ((s, z, 0) :: segAnnotate (b :: rest)).map (fun a => (a.1, a.2.1)) =
        (s, z) :: b :: rest
      simp only [List.map_cons, segAnnotate_map (b :: rest)]

/-- Exactly one annotated segment of a nonempty load carries SEG_FINAL. -/
theorem segAnnotate_countP :
    ∀ segs : List (Nat × Nat), segs ≠ [] →
      (segAnnotate segs).countP (fun a => a.2.2 &&& SEG_FINAL != 0) = 1
  | [], h => absurd rfl h
  | [(s, z)], _ => by
      show ([(s, z, SEG_FINAL)]).countP (fun a => a.2.2 &&& SEG_FINAL != 0) = 1
      simp [List.countP_cons, SEG_FINAL]
  | (s, z) :: b :: rest, _ => by
      have ih := segAnnotate_countP (b :: rest) (by simp)
      show (((s, z, 0) :: segAnnotate (b :: rest)).countP
        (fun a => a.2.2 &&& SEG_FINAL != 0)) = 1
      rw [List.countP_cons, ih]
      simp [SEG_FINAL]

/-- Dropping the head of a list with a nonempty tail keeps the last
element. -/
theorem getLast?_cons_of_ne_nil {α : Type} (a : α) (l : List α)
    (h : l ≠ []) : (a :: l).getLast? = l.getLast? := by
  cases l
  · exact absurd rfl h
  · simp [List.getLast?]

/-- The last annotated segment of a nonempty load carries SEG_FINAL. -/
theorem segAnnotate_getLast :
    ∀ segs : List (Nat × Nat), segs ≠ [] →
      ∃ s z, (segAnnotate segs).getLast? = some (s, z, SEG_FINAL)
  | [], h => absurd rfl h
  | [(s, z)], _ => ⟨s, z, rfl⟩
  | (s, z) :: b :: rest, _ => by
      obtain ⟨s2, z2, hl⟩ := segAnnotate_getLast (b :: rest) (by simp)
      have hne : segAnnotate (b :: rest) ≠ [] := by
        intro hn
        rw [hn] at hl
        exact Option.noConfusion hl
      refine ⟨s2, z2, ?_⟩
      show ((s, z, 0) :: segAnnotate (b :: rest)).getLast? =
        some (s2, z2, SEG_FINAL)
      rw [getLast?_cons_of_ne_nil _ _ hne, hl]

/-- Clearing a bit mask keeps the cleared bit at zero: relates the 32-bit
complement mask to the bit it clears. -/
theorem land_NOT32_DPERR (x : Nat) :
    (x &&& NOT32 PCI_X_CMD_DPERR_E) &&& PCI_X_CMD_DPERR_E = 0 := by
  rw [Nat.land_assoc]
  simp [NOT32, PCI_X_CMD_DPERR_E]

/-- Extracting the guarded-write pattern: an if that yields some on a
true condition and none otherwise equals some w only when the condition
holds and w is the guarded value. -/
theorem ite_some_none_inv {c : Prop} [Decidable c] {x w : Nat}
    (h : (if c then some x else none) = some w) : c ∧ w = x := by
  split at h
  · exact ⟨by assumption, (Option.some.inj h).symm⟩
  · exact Option.noConfusion h

/-! Claim theorems. -/

/-- C1: if the policy hook prog_locate_hook returns a non-zero (deny)
value for the descriptor, prog_locate fails immediately with the
policy-denied error and invokes the locate operation of no registered
loader strategy. -/
theorem prog_locate_policy_denied (hook : Prog → Int)
    (loaders : List ProgLoaderOps) (p : Prog) (h : hook p ≠ 0) :
    (prog_locate hook loaders p).outcome = LocateOutcome.policyDenied ∧
    (prog_locate hook loaders p).invoked = [] := by
  simp [prog_locate, h]

/-- Witness for C1 at a denying hook, one registered strategy and a
verstage descriptor. -/
theorem prog_locate_policy_denied_witness :
    ((fun _ : Prog => (1 : Int)) (PROG_INIT ProgType.verstage "verstage") ≠ 0) ∧
    ((prog_locate (fun _ => 1)
        [⟨"cbfs", fun _ => 1,
          fun _ => some (RegionDevice.chain RegionDevice.addrspace32bit 0 64)⟩]
        (PROG_INIT ProgType.verstage "verstage")).outcome =
          LocateOutcome.policyDenied ∧
      (prog_locate (fun _ => 1)
        [⟨"cbfs", fun _ => 1,
          fun _ => some (RegionDevice.chain RegionDevice.addrspace32bit 0 64)⟩]
        (PROG_INIT ProgType.verstage "verstage")).invoked = []) :=
  ⟨by decide, prog_locate_policy_denied _ _ _ (by decide)⟩

/-- C2: for a nonempty program load, the hook trace is, per segment, the
platform hook immediately followed by the architecture hook with the
same start, size and flags; the annotation preserves each start and
size; exactly one segment carries SEG_FINAL; and it is the last one. -/
theorem prog_segment_loaded_dispatch (segs : List (Nat × Nat))
    (h : segs ≠ []) :
    load_segments segs = pairTrace (segAnnotate segs) ∧
    (segAnnotate segs).map (fun a => (a.1, a.2.1)) = segs ∧
    (segAnnotate segs).countP (fun a => a.2.2 &&& SEG_FINAL != 0) = 1 ∧
    (∃ s z, (segAnnotate segs).getLast? = some (s, z, SEG_FINAL)) :=
  ⟨load_segments_eq_pairTrace segs, segAnnotate_map segs,
    segAnnotate_countP segs h, segAnnotate_getLast segs h⟩

/-- Witness for C2 at the three-segment load of sizes [10, 20, 5]. -/
theorem prog_segment_loaded_dispatch_witness :
    (([(0x100, 10), (0x200, 20), (0x300, 5)] : List (Nat × Nat)) ≠ []) ∧
    (load_segments [(0x100, 10), (0x200, 20), (0x300, 5)] =
        pairTrace (segAnnotate [(0x100, 10), (0x200, 20), (0x300, 5)]) ∧
      (segAnnotate [(0x100, 10), (0x200, 20), (0x300, 5)]).map
          (fun a => (a.1, a.2.1)) = [(0x100, 10), (0x200, 20), (0x300, 5)] ∧
      (segAnnotate [(0x100, 10), (0x200, 20), (0x300, 5)]).countP
          (fun a => a.2.2 &&& SEG_FINAL != 0) = 1 ∧
      (∃ s z, (segAnnotate [(0x100, 10), (0x200, 20), (0x300, 5)]).getLast? =
          some (s, z, SEG_FINAL))) :=
  ⟨by decide, prog_segment_loaded_dispatch _ (by decide)⟩

/-- C3: the type field of a descriptor is never modified by any
operation of the program-loading interface: prog_set_area,
prog_memory_init, prog_set_entry, prog_set_arg, prog_locate and
prog_run all leave prog_type returning the construction-time type. -/
theorem prog_type_immutable (p : Prog) (start sz ptr msz e a a2 : Nat)
    (hook : Prog → Int) (loaders : List ProgLoaderOps) :
    prog_type (prog_set_area p start sz) = prog_type p ∧
    prog_type (prog_memory_init p ptr msz) = prog_type p ∧
    prog_type (prog_set_entry p e a) = prog_type p ∧
    prog_type (prog_set_arg p a2) = prog_type p ∧
    prog_type (prog_locate hook loaders p).prog = prog_type p ∧
    prog_type (prog_run p).2 = prog_type p := by
  refine ⟨rfl, rfl, rfl, rfl, ?_, rfl⟩
  unfold prog_locate prog_type
  split
  · rfl
  · exact locate_loop_type_eq loaders p

/-- C4: whenever prog_locate returns a failure outcome, the backing
region (rdev field) of the descriptor is unchanged from its value
before the call. -/
theorem prog_locate_rdev_unchanged_on_failure (hook : Prog → Int)
    (loaders : List ProgLoaderOps) (p : Prog)
    (h : (prog_locate hook loaders p).outcome ≠ LocateOutcome.success) :
    (prog_locate hook loaders p).prog.rdev = p.rdev := by
  by_cases hc : hook p ≠ 0
  · simp [prog_locate, hc]
  · have hp := locate_loop_fail_prog loaders p
      (by simpa [prog_locate, hc] using h)
    simp [prog_locate, hc, hp]

/-- Witness for C4 at an active strategy whose locate fails on a
romstage descriptor. -/
theorem prog_locate_rdev_unchanged_on_failure_witness :
    ((prog_locate (fun _ => 0) [⟨"cbfs", fun _ => 1, fun _ => none⟩]
        (PROG_INIT ProgType.romstage "romstage")).outcome ≠
      LocateOutcome.success) ∧
    (prog_locate (fun _ => 0) [⟨"cbfs", fun _ => 1, fun _ => none⟩]
        (PROG_INIT ProgType.romstage "romstage")).prog.rdev =
      (PROG_INIT ProgType.romstage "romstage").rdev :=
  ⟨by decide, prog_locate_rdev_unchanged_on_failure _ _ _ (by decide)⟩

/-- C5: prog_set_area binds the backing region of the descriptor to the
sub-span [start, start + size) of the fixed 32-bit flat address space
addrspace_32bit, discarding any previously bound region, and modifies
no other descriptor field. -/
theorem prog_set_area_binds (p : Prog) (start sz : Nat) :
    (prog_set_area p start sz).rdev =
      RegionDevice.chain RegionDevice.addrspace32bit start sz ∧
    (prog_set_area p start sz).type = p.type ∧
    (prog_set_area p start sz).cbfs_type = p.cbfs_type ∧
    (prog_set_area p start sz).name = p.name ∧
    (prog_set_area p start sz).entry = p.entry ∧
    (prog_set_area p start sz).arg = p.arg :=
  ⟨rfl, rfl, rfl, rfl, rfl, rfl⟩

/-- C6: prog_run dispatches the platform pre-run hook before the
architecture transfer-of-control hook, both receiving the descriptor,
and mutates no field of the descriptor itself. -/
theorem prog_run_dispatch (p : Prog) :
    (prog_run p).1 = [RunEvent.platformRun p, RunEvent.archRun p] ∧
    (prog_run p).2 = p :=
  ⟨rfl, rfl⟩

/-- C7: prog_set_entry sets exactly the entry and arg fields with no
validation, prog_set_arg sets exactly the arg field; all other fields
are unchanged, and the accessors prog_entry and prog_entry_arg return
the stored values. -/
theorem prog_set_entry_arg_frame (p : Prog) (e a a2 : Nat) :
    prog_entry (prog_set_entry p e a) = e ∧
    prog_entry_arg (prog_set_entry p e a) = a ∧
    (prog_set_entry p e a).type = p.type ∧
    (prog_set_entry p e a).cbfs_type = p.cbfs_type ∧
    (prog_set_entry p e a).name = p.name ∧
    (prog_set_entry p e a).rdev = p.rdev ∧
    prog_entry_arg (prog_set_arg p a2) = a2 ∧
    (prog_set_arg p a2).entry = p.entry ∧
    (prog_set_arg p a2).type = p.type ∧
    (prog_set_arg p a2).cbfs_type = p.cbfs_type ∧
    (prog_set_arg p a2).name = p.name ∧
    (prog_set_arg p a2).rdev = p.rdev :=
  ⟨rfl, rfl, rfl, rfl, rfl, rfl, rfl, rfl, rfl, rfl, rfl, rfl⟩

/-- C8: in amd8132_pcix_tune_dev, for bridge revision 0x01 the clamped
max outstanding split transactions value equals min of the value read
from the status register and a limit of 1 when sibs ≥ 2 (three or more
master devices), 3 when sibs = 1 (exactly two master devices), and 4
otherwise; for any other revision the value is unchanged. -/
theorem amd8132_clamp_eq_min (rev : Nat) (sibs : Int) (v : Nat) :
    amd8132_clamped_tran rev sibs v =
      if rev = 0x01 then
        min v (if sibs ≥ 2 then 1 else if sibs = 1 then 3 else 4)
      else v := by
  unfold amd8132_clamped_tran
  split_ifs <;> omega

/-- C9: every command value written back by amd8132_pcix_tune_dev has
the PCI_X_CMD_DPERR_E bit clear, and a write happens at all only when
the computed command differs from the originally read command. -/
theorem amd8132_write_no_dperr (rev : Nat) (md : Int) (status cmd0 w : Nat)
    (h : amd8132_tune_cmd rev md status cmd0 = some w) :
    w &&& PCI_X_CMD_DPERR_E = 0 ∧ w ≠ cmd0 := by
  simp only [amd8132_tune_cmd] at h
  obtain ⟨hc, hw⟩ := ite_some_none_inv h
  subst hw
  exact ⟨land_NOT32_DPERR _, fun e => hc e.symm⟩

/-- Witness for C9 at revision 0x01, three master devices, a status
register advertising seven outstanding split transactions and a command
register with the parity-recovery bit set. -/
theorem amd8132_write_no_dperr_witness :
    amd8132_tune_cmd 1 3 0x3800000 0x71 = some 0x10 ∧
    ((0x10 : Nat) &&& PCI_X_CMD_DPERR_E = 0 ∧ (0x10 : Nat) ≠ 0x71) :=
  ⟨by decide, amd8132_write_no_dperr 1 3 0x3800000 0x71 0x10 (by decide)⟩

/-- C10: mainboard_configure_gpios and mainboard_configure_early_gpios
are extensionally equal — both configure exactly the pads of gpio_table
via a single gpio_configure_pads call with ARRAY_SIZE(gpio_table). -/
theorem mainboard_gpio_configs_equal (t : List PadCfg) :
    mainboard_configure_gpios t = mainboard_configure_early_gpios t ∧
    mainboard_configure_gpios t = t := by
  refine ⟨rfl, ?_⟩
  simp [mainboard_configure_gpios, gpio_configure_pads, ARRAY_SIZE]
